import Mathlib

set_option maxHeartbeats 1000000

/-!
Verification of the unified OpenAI/MCP app adapter library
(`unified-app.ts` and `use-unified-app.ts`).

The definitions below are a shallow embedding of the TypeScript source.
JavaScript values are modelled by the inductive type `JSValue`; JavaScript
objects are association lists of string keys; a rejected promise or a thrown
exception is the error case of `Except`.  Each adapter operation returns the
transcript of errors reported to the injected `onError` callback (for the
first-host adapter) or of calls made to the underlying host client (for the
second-host adapter), together with the operation's outcome.
-/

inductive JSValue where
  | null : JSValue
  | bool (b : Bool) : JSValue
  | num (n : Int) : JSValue
  | str (s : String) : JSValue
  | arr (elems : List JSValue) : JSValue
  | obj (fields : List (String × JSValue)) : JSValue

/-- JavaScript strict comparison against `null` (`v !== null` is the
negation). -/
def isNullJS : JSValue → Bool
  | .null => true
  | _ => false

/-- JavaScript property lookup on an object modelled as an association list
(first occurrence wins, matching unique-key JS objects). -/
def lookupField : List (String × JSValue) → String → Option JSValue
  | [], _ => none
  | (k, v) :: rest, key => if k = key then some v else lookupField rest key

/-- JavaScript truthiness of a value. -/
def jsTruthy : JSValue → Bool
  | .null => false
  | .bool b => b
  | .num n => decide (n ≠ 0)
  | .str s => decide (s ≠ "")
  | .arr _ => true
  | .obj _ => true

mutual

/-- JavaScript `String(v)` coercion. -/
def jsString : JSValue → String
  | .null => "null"
  | .bool b => if b then "true" else "false"
  | .num n => toString n
  | .str s => s
  | .arr xs => jsStringList xs
  | .obj _ => "[object Object]"

/-- Elements of an array joined with commas, as `Array.prototype.toString`. -/
def jsStringList : List JSValue → String
  | [] => ""
  | [x] => jsStringItem x
  | x :: xs => jsStringItem x ++ "," ++ jsStringList xs

/-- One array element inside `Array.prototype.toString`: `null` renders empty. -/
def jsStringItem : JSValue → String
  | .null => ""
  | .bool b => if b then "true" else "false"
  | .num n => toString n
  | .str s => s
  | .arr xs => jsStringList xs
  | .obj _ => "[object Object]"

end

/-- Escape of one character inside a JSON string literal. -/
def jsonEscapeChar (c : Char) : String :=
  if c = '"' then "\\\""
  else if c = '\\' then "\\\\"
  else if c = '\n' then "\\n"
  else if c = '\r' then "\\r"
  else if c = '\t' then "\\t"
  else String.mk [c]

/-- JSON string literal with quotes. -/
def jsonQuote (s : String) : String :=
  "\"" ++ String.join (s.data.map jsonEscapeChar) ++ "\""

mutual

/-- JavaScript `JSON.stringify(v)`. -/
def jsonStringify : JSValue → String
  | .null => "null"
  | .bool b => if b then "true" else "false"
  | .num n => toString n
  | .str s => jsonQuote s
  | .arr xs => "[" ++ jsonStringifyArr xs ++ "]"
  | .obj fs => "\x7b" ++ jsonStringifyFields fs ++ "\x7d"

def jsonStringifyArr : List JSValue → String
  | [] => ""
  | [x] => jsonStringify x
  | x :: xs => jsonStringify x ++ "," ++ jsonStringifyArr xs

def jsonStringifyFields : List (String × JSValue) → String
  | [] => ""
  | [(k, v)] => jsonQuote k ++ ":" ++ jsonStringify v
  | (k, v) :: fs => jsonQuote k ++ ":" ++ jsonStringify v ++ "," ++ jsonStringifyFields fs

end

-- ===========================================================================
-- Platform detection (unified-app.ts, detectPlatform / isOpenAI / isMCP)
-- ===========================================================================

inductive Platform where
  | openai
  | mcp
  | unknown
  deriving DecidableEq

/-- Ambient browser environment: whether `window` is defined and whether
`window.openai` is set to a truthy value. -/
structure JSEnv where
  windowDefined : Bool
  openaiTruthy : Bool
  deriving DecidableEq

/-- Embedding of `detectPlatform`: `window` defined and `window.openai`
truthy yields "openai", every other environment yields "unknown". -/
def detectPlatform (env : JSEnv) : Platform :=
  if env.windowDefined && env.openaiTruthy then .openai else .unknown

/-- Embedding of `isOpenAI`. -/
def isOpenAI (env : JSEnv) : Bool :=
  detectPlatform env == Platform.openai

/-- Embedding of `isMCP`: true when `detectPlatform` returns "mcp" or
"unknown". -/
def isMCP (env : JSEnv) : Bool :=
  detectPlatform env == Platform.mcp || detectPlatform env == Platform.unknown

/-- C7: the detector returns "openai" exactly when the well-known first-host
global is present (window defined and `window.openai` truthy); in every other
environment it returns "unknown", and it never returns "mcp".  The embedding
is a pure function of the ambient environment, so it performs no I/O and has
no side effects. -/
theorem C7_detectPlatform : ∀ env : JSEnv,
    (detectPlatform env = Platform.openai ↔
      (env.windowDefined = true ∧ env.openaiTruthy = true))
    ∧ (¬ (env.windowDefined = true ∧ env.openaiTruthy = true) →
        detectPlatform env = Platform.unknown)
    ∧ detectPlatform env ≠ Platform.mcp := by
  intro env
  obtain ⟨w, o⟩ := env
  cases w <;> cases o <;> simp [detectPlatform]

/-- Witness for C7 at a concrete environment. -/
theorem C7_detectPlatform_witness :
    detectPlatform ⟨true, true⟩ = Platform.openai :=
  (C7_detectPlatform ⟨true, true⟩).1.mpr ⟨rfl, rfl⟩

/-- C10: `isMCP` returns true exactly when `detectPlatform` does not return
"openai"; in particular it is already true in the provisional "unknown"
state, with no successful second-host handshake involved. -/
theorem C10_isMCP : ∀ env : JSEnv,
    isMCP env = true ↔ detectPlatform env ≠ Platform.openai := by
  intro env
  obtain ⟨w, o⟩ := env
  cases w <;> cases o <;> simp [isMCP, detectPlatform]

/-- Witness for C10: in an environment with no first-host global, `isMCP`
answers true even though no handshake has happened. -/
theorem C10_isMCP_witness : isMCP ⟨true, false⟩ = true :=
  (C10_isMCP ⟨true, false⟩).mpr (by simp [detectPlatform])

-- ===========================================================================
-- Tool-result conversion (unified-app.ts, convertOpenAIToolOutput)
-- ===========================================================================

/-- Unified result holding a single text content part, the shape
`\x7b content: [\x7b type: "text", text: s \x7d] \x7d` produced by the
conversion's non-pass-through branches. -/
def mkTextResult (s : String) : JSValue :=
  JSValue.obj
    [("content",
      JSValue.arr [JSValue.obj [("type", JSValue.str "text"), ("text", JSValue.str s)]])]

/-- Embedding of `convertOpenAIToolOutput`.  The branch order follows the
source: a string input first; then a truthy object (a plain object or an
array) whose `content` property is an array is returned as-is, else a `text`
property is stringified, else the whole object is JSON-serialized; `null`
and the remaining primitives fall through to `String(output)`. -/
def convertOpenAIToolOutput (output : JSValue) : JSValue :=
  match output with
  | .str s => mkTextResult s
  | .obj fields =>
    match lookupField fields "content" with
    | some (JSValue.arr _) => JSValue.obj fields
    | _ =>
      match lookupField fields "text" with
      | some t => mkTextResult (jsString t)
      | none => mkTextResult (jsonStringify (JSValue.obj fields))
  | .arr xs => mkTextResult (jsonStringify (JSValue.arr xs))
  | v => mkTextResult (jsString v)

/-- A content part whose `type` property is exactly the string "text". -/
def isTextContentPart (p : JSValue) : Bool :=
  match p with
  | .obj fs =>
    match lookupField fs "type" with
    | some (JSValue.str t) => t == "text"
    | _ => false
  | _ => false

/-- The string held by the first text-typed part of a result's `content`
array, when there is one. -/
def firstTextPart (r : JSValue) : Option String :=
  match r with
  | .obj fields =>
    match lookupField fields "content" with
    | some (JSValue.arr parts) =>
      match parts.find? isTextContentPart with
      | some (JSValue.obj fs) =>
        match lookupField fs "text" with
        | some (JSValue.str s) => some s
        | _ => none
      | _ => none
    | _ => none
  | _ => none

/-- C3: the conversion's precedence — an object with an array-valued
`content` property is returned as-is; otherwise a `text` property yields a
single text part holding its stringification; otherwise any other object
(arrays included) yields a single text part holding its JSON serialization;
a plain string and the remaining primitives yield a single text part holding
their stringification — and the two concrete round trips both expose "42" as
the first text-typed content part. -/
theorem C3_convertOpenAIToolOutput :
    (∀ (fields : List (String × JSValue)) (xs : List JSValue),
        lookupField fields "content" = some (JSValue.arr xs) →
        convertOpenAIToolOutput (JSValue.obj fields) = JSValue.obj fields)
    ∧ (∀ (fields : List (String × JSValue)) (t : JSValue),
        (∀ xs, lookupField fields "content" ≠ some (JSValue.arr xs)) →
        lookupField fields "text" = some t →
        convertOpenAIToolOutput (JSValue.obj fields) = mkTextResult (jsString t))
    ∧ (∀ fields : List (String × JSValue),
        (∀ xs, lookupField fields "content" ≠ some (JSValue.arr xs)) →
        lookupField fields "text" = none →
        convertOpenAIToolOutput (JSValue.obj fields)
          = mkTextResult (jsonStringify (JSValue.obj fields)))
    ∧ (∀ s : String, convertOpenAIToolOutput (JSValue.str s) = mkTextResult s)
    ∧ (∀ xs : List JSValue,
        convertOpenAIToolOutput (JSValue.arr xs)
          = mkTextResult (jsonStringify (JSValue.arr xs)))
    ∧ convertOpenAIToolOutput JSValue.null = mkTextResult (jsString JSValue.null)
    ∧ (∀ n : Int,
        convertOpenAIToolOutput (JSValue.num n) = mkTextResult (jsString (JSValue.num n)))
    ∧ (∀ b : Bool,
        convertOpenAIToolOutput (JSValue.bool b) = mkTextResult (jsString (JSValue.bool b)))
    ∧ firstTextPart (convertOpenAIToolOutput (JSValue.obj [("text", JSValue.str "42")]))
        = some "42"
    ∧ firstTextPart (convertOpenAIToolOutput (JSValue.obj
        [("content",
          JSValue.arr [JSValue.obj [("type", JSValue.str "text"), ("text", JSValue.str "42")]])]))
        = some "42" := by
  refine ⟨?_, ?_, ?_, fun s => rfl, fun xs => rfl, rfl, fun n => rfl, fun b => rfl, rfl, rfl⟩
  · intro fields xs h
    simp only [convertOpenAIToolOutput, h]
  · intro fields t hnc ht
    simp only [convertOpenAIToolOutput]
    rcases hc : lookupField fields "content" with _ | v
    · simp only [ht]
    · cases v
      case arr xs => exact absurd hc (hnc xs)
      all_goals simp only [ht]
  · intro fields hnc ht
    simp only [convertOpenAIToolOutput]
    rcases hc : lookupField fields "content" with _ | v
    · simp only [ht]
    · cases v
      case arr xs => exact absurd hc (hnc xs)
      all_goals simp only [ht]

/-- Witness for C3 at concrete inputs, discharging each hypothesis. -/
theorem C3_convertOpenAIToolOutput_witness :
    convertOpenAIToolOutput (JSValue.obj [("content", JSValue.arr [])])
      = JSValue.obj [("content", JSValue.arr [])]
    ∧ convertOpenAIToolOutput (JSValue.obj [("text", JSValue.str "42")])
      = mkTextResult "42"
    ∧ convertOpenAIToolOutput (JSValue.obj [("a", JSValue.num 1)])
      = mkTextResult (jsonStringify (JSValue.obj [("a", JSValue.num 1)])) :=
  ⟨C3_convertOpenAIToolOutput.1 [("content", JSValue.arr [])] [] rfl,
   C3_convertOpenAIToolOutput.2.1 [("text", JSValue.str "42")] (JSValue.str "42")
     (fun xs h => by simp [lookupField] at h) rfl,
   C3_convertOpenAIToolOutput.2.2.1 [("a", JSValue.num 1)]
     (fun xs h => by simp [lookupField] at h) rfl⟩

-- ===========================================================================
-- First-host adapter (unified-app.ts, createOpenAIAdapter)
-- ===========================================================================

/-- The `text` property of a found content part (`textContent?.text`); an
absent property reads as a falsy value. -/
def partTextField (part : JSValue) : JSValue :=
  match part with
  | .obj fs => (lookupField fs "text").getD JSValue.null
  | _ => JSValue.null

namespace OpenAIAdapter

/-- Embedding of the first-host `callServerTool`: `openai.callTool` outcome
in, transcript of `onError` reports and outcome out; a host failure is
reported and then rethrown, a success is converted. -/
def callServerTool (hostCallTool : Except String JSValue) :
    List String × Except String JSValue :=
  match hostCallTool with
  | .ok v => ([], .ok (convertOpenAIToolOutput v))
  | .error e => ([e], .error e)

/-- Embedding of the first-host `sendMessage`: the first content part typed
"text" with a truthy `text` is forwarded to `openai.sendFollowUpMessage`; a
host failure is reported to `onError` and the call resolves with
`isError: true` (the Bool in the outcome); otherwise `isError: false`. -/
def sendMessage (content : List JSValue) (hostSendFollowUp : Except String Unit) :
    List String × Except String Bool :=
  match content.find? isTextContentPart with
  | some part =>
    if jsTruthy (partTextField part) then
      match hostSendFollowUp with
      | .ok _ => ([], .ok false)
      | .error e => ([e], .ok true)
    else ([], .ok false)
  | none => ([], .ok false)

/-- Embedding of the first-host `openLink`: forwards to
`openai.openExternal`; a failure is reported and converted to
`isError: true`. -/
def openLink (hostOpenExternal : Except String Unit) :
    List String × Except String Bool :=
  match hostOpenExternal with
  | .ok _ => ([], .ok false)
  | .error e => ([e], .ok true)

/-- Embedding of the first-host `uploadFile`: a bare await of
`openai.uploadFile` with no catch, so a failure is neither reported nor
converted. -/
def uploadFile (hostUploadFile : Except String JSValue) :
    List String × Except String JSValue :=
  ([], hostUploadFile)

/-- Embedding of the first-host `getFileDownloadUrl`: bare await, no catch. -/
def getFileDownloadUrl (hostGetFileDownloadUrl : Except String JSValue) :
    List String × Except String JSValue :=
  ([], hostGetFileDownloadUrl)

/-- Embedding of the first-host `share`: bare await, no catch. -/
def share (hostShare : Except String Unit) : List String × Except String Unit :=
  ([], hostShare)

/-- Embedding of the first-host `callCompletion`: bare await, no catch. -/
def callCompletion (hostCallCompletion : Except String JSValue) :
    List String × Except String JSValue :=
  ([], hostCallCompletion)

/-- Embedding of the first-host `streamCompletion`: direct forward, no
catch. -/
def streamCompletion (hostStreamCompletion : Except String JSValue) :
    List String × Except String JSValue :=
  ([], hostStreamCompletion)

/-- Embedding of the first-host `requestDisplayMode`: bare await, no catch. -/
def requestDisplayMode (hostRequestDisplayMode : Except String Unit) :
    List String × Except String Unit :=
  ([], hostRequestDisplayMode)

/-- Embedding of the first-host `setWidgetState`: direct synchronous forward
to `openai.setWidgetState`, no catch. -/
def setWidgetState (hostSetWidgetState : Except String Unit) :
    List String × Except String Unit :=
  ([], hostSetWidgetState)

/-- Embedding of the first-host `updateWidgetState`: direct synchronous
forward to `openai.updateWidgetState`, no catch. -/
def updateWidgetState (hostUpdateWidgetState : Except String Unit) :
    List String × Except String Unit :=
  ([], hostUpdateWidgetState)

end OpenAIAdapter

/-- C1 counterexample: the claim requires every operation other than
`sendMessage`/`openLink` to report a host failure through `onError` before
rethrowing, but the first-host `uploadFile` has no catch at all: on a host
failure its `onError` transcript is empty rather than holding the error. -/
theorem C1_counterexample :
    (OpenAIAdapter.uploadFile (Except.error "boom")).1 = []
    ∧ ((OpenAIAdapter.uploadFile (Except.error "boom")).1 = ["boom"] → False) :=
  ⟨rfl, fun h => List.noConfusion h⟩

/-- C1 (amended): only `callServerTool` catches a host failure, reports it
through `onError` and rethrows it; `sendMessage` (when the message carries a
truthy text part, so the host is actually invoked) and `openLink` catch,
report, and resolve with `isError: true`; every other host-forwarding
operation (`uploadFile`, `getFileDownloadUrl`, `share`, `callCompletion`,
`streamCompletion`, `requestDisplayMode`, `setWidgetState`,
`updateWidgetState`) has no catch, so the host failure propagates to the
caller without any `onError` report. -/
theorem C1_amended : ∀ e : String,
    OpenAIAdapter.callServerTool (Except.error e) = ([e], Except.error e)
    ∧ (∀ (content : List JSValue) (part : JSValue),
        content.find? isTextContentPart = some part →
        jsTruthy (partTextField part) = true →
        OpenAIAdapter.sendMessage content (Except.error e) = ([e], Except.ok true))
    ∧ OpenAIAdapter.openLink (Except.error e) = ([e], Except.ok true)
    ∧ OpenAIAdapter.uploadFile (Except.error e) = ([], Except.error e)
    ∧ OpenAIAdapter.getFileDownloadUrl (Except.error e) = ([], Except.error e)
    ∧ OpenAIAdapter.share (Except.error e) = ([], Except.error e)
    ∧ OpenAIAdapter.callCompletion (Except.error e) = ([], Except.error e)
    ∧ OpenAIAdapter.streamCompletion (Except.error e) = ([], Except.error e)
    ∧ OpenAIAdapter.requestDisplayMode (Except.error e) = ([], Except.error e)
    ∧ OpenAIAdapter.setWidgetState (Except.error e) = ([], Except.error e)
    ∧ OpenAIAdapter.updateWidgetState (Except.error e) = ([], Except.error e) := by
  intro e
  refine ⟨rfl, ?_, rfl, rfl, rfl, rfl, rfl, rfl, rfl, rfl, rfl⟩
  intro content part hfind htruthy
  simp [OpenAIAdapter.sendMessage, hfind, htruthy]

/-- Witness for C1 (amended) at a concrete message with a truthy text part
and a concrete host failure. -/
theorem C1_amended_witness :
    OpenAIAdapter.sendMessage
      [JSValue.obj [("type", JSValue.str "text"), ("text", JSValue.str "hi")]]
      (Except.error "boom")
    = (["boom"], Except.ok true) :=
  (C1_amended "boom").2.1
    [JSValue.obj [("type", JSValue.str "text"), ("text", JSValue.str "hi")]]
    (JSValue.obj [("type", JSValue.str "text"), ("text", JSValue.str "hi")])
    (by rfl) (by rfl)

-- ===========================================================================
-- Second-host adapter (unified-app.ts, createMCPAdapter)
-- ===========================================================================

namespace MCPAdapter

/-- Each second-host operation returns the list of underlying host-client
(`app`) methods it invokes together with its outcome; the five
OpenAI-exclusive operations below throw a fixed error without touching the
host client, so their call transcript is empty and no state is involved. -/
def uploadFile (_file : JSValue) : List String × Except String JSValue :=
  ([], .error "uploadFile is not supported on MCP platform")

/-- Embedding of the second-host `getFileDownloadUrl`: immediate throw. -/
def getFileDownloadUrl (_params : JSValue) : List String × Except String JSValue :=
  ([], .error "getFileDownloadUrl is not supported on MCP platform")

/-- Embedding of the second-host `share`: immediate throw. -/
def share (_params : JSValue) : List String × Except String Unit :=
  ([], .error "share is not supported on MCP platform")

/-- Embedding of the second-host `callCompletion`: immediate throw. -/
def callCompletion (_params : JSValue) : List String × Except String JSValue :=
  ([], .error "callCompletion is not supported on MCP platform")

/-- Embedding of the second-host `streamCompletion`: immediate synchronous
throw. -/
def streamCompletion (_params : JSValue) : List String × Except String JSValue :=
  ([], .error "streamCompletion is not supported on MCP platform")

end MCPAdapter

/-- C4: each OpenAI-exclusive operation on the second-host adapter fails with
its fixed descriptive message, for every argument; the empty first component
is the transcript of host-client calls, so no call reaches the underlying
client and no state is touched. -/
theorem C4_mcpUnsupported : ∀ file p1 p2 p3 p4 : JSValue,
    MCPAdapter.uploadFile file
      = ([], Except.error "uploadFile is not supported on MCP platform")
    ∧ MCPAdapter.getFileDownloadUrl p1
      = ([], Except.error "getFileDownloadUrl is not supported on MCP platform")
    ∧ MCPAdapter.share p2
      = ([], Except.error "share is not supported on MCP platform")
    ∧ MCPAdapter.callCompletion p3
      = ([], Except.error "callCompletion is not supported on MCP platform")
    ∧ MCPAdapter.streamCompletion p4
      = ([], Except.error "streamCompletion is not supported on MCP platform") :=
  fun _ _ _ _ _ => ⟨rfl, rfl, rfl, rfl, rfl⟩

-- ===========================================================================
-- JavaScript object spread on association lists
-- ===========================================================================

/-- Overwrite of one object entry during an assignment of `v` at key `k`. -/
def assignEntry (k : String) (v : JSValue) (p : String × JSValue) :
    String × JSValue :=
  if p.1 = k then (k, v) else p

/-- JavaScript property assignment `target[k] = v` during a spread: an
existing key is overwritten in place, a new key is appended. -/
def objAssign (o : List (String × JSValue)) (k : String) (v : JSValue) :
    List (String × JSValue) :=
  match lookupField o k with
  | some _ => o.map (assignEntry k v)
  | none => o ++ [(k, v)]

theorem assignEntry_pair (k : String) (v : JSValue) (k1 : String) (v1 : JSValue) :
    assignEntry k v (k1, v1) = if k1 = k then (k, v) else (k1, v1) := rfl

/-- JavaScript object spread `\x7b ...a, ...b \x7d`: the properties of `b`
assigned onto a copy of `a` in order. -/
def objSpread (a b : List (String × JSValue)) : List (String × JSValue) :=
  b.foldl (fun acc p => objAssign acc p.1 p.2) a

theorem lookupField_append (a b : List (String × JSValue)) (key : String) :
    lookupField (a ++ b) key
      = (lookupField a key).orElse (fun _ => lookupField b key) := by
  induction a with
  | nil => simp [lookupField, Option.orElse]
  | cons p rest ih =>
    obtain ⟨k, v⟩ := p
    by_cases h : k = key <;> simp [lookupField, h, ih, Option.orElse]

theorem lookupField_map_assign_of_ne (o : List (String × JSValue)) (k : String)
    (v : JSValue) (key : String) (h : key ≠ k) :
    lookupField (o.map (assignEntry k v)) key = lookupField o key := by
  induction o with
  | nil => rfl
  | cons p rest ih =>
    obtain ⟨k1, v1⟩ := p
    by_cases h1 : k1 = k
    · subst h1
      simp only [List.map_cons, assignEntry_pair, if_pos rfl]
      simp [lookupField, Ne.symm h, ih]
    · simp only [List.map_cons, assignEntry_pair, if_neg h1]
      simp [lookupField, ih]

theorem lookupField_map_assign_self (o : List (String × JSValue)) (k : String)
    (v w : JSValue) (h : lookupField o k = some w) :
    lookupField (o.map (assignEntry k v)) k = some v := by
  induction o with
  | nil => simp [lookupField] at h
  | cons p rest ih =>
    obtain ⟨k1, v1⟩ := p
    by_cases h1 : k1 = k
    · subst h1
      simp only [List.map_cons, assignEntry_pair, if_pos rfl]
      simp [lookupField]
    · simp only [lookupField, if_neg h1] at h
      simp only [List.map_cons, assignEntry_pair, if_neg h1]
      simp [lookupField, h1]
      exact ih h

/-- Lookup after a JavaScript assignment: the assigned key reads the new
value, every other key is untouched. -/
theorem lookupField_objAssign (o : List (String × JSValue)) (k : String)
    (v : JSValue) (key : String) :
    lookupField (objAssign o k v) key
      = if key = k then some v else lookupField o key := by
  unfold objAssign
  rcases h : lookupField o k with _ | w
  · rw [lookupField_append]
    by_cases hk : key = k
    · subst hk
      simp [h, lookupField, Option.orElse]
    · simp only [if_neg hk, lookupField, if_neg (fun he : k = key => hk he.symm)]
      rcases lookupField o key with _ | u <;> simp [Option.orElse]
  · by_cases hk : key = k
    · subst hk
      simp only [if_pos rfl]
      exact lookupField_map_assign_self o key v w h
    · simp only [if_neg hk]
      exact lookupField_map_assign_of_ne o k v key hk

theorem lookupField_eq_none_of_not_mem (b : List (String × JSValue)) (key : String)
    (h : key ∉ b.map Prod.fst) : lookupField b key = none := by
  induction b with
  | nil => rfl
  | cons p rest ih =>
    obtain ⟨k, v⟩ := p
    simp only [List.map_cons, List.mem_cons, not_or] at h
    simp only [lookupField, if_neg (fun he : k = key => h.1 he.symm)]
    exact ih h.2

/-- Lookup after a JavaScript spread with unique update keys: a key present
in the update reads the update's value, any other key reads the base
object's value. -/
theorem lookupField_objSpread (a b : List (String × JSValue)) (key : String)
    (hb : (b.map Prod.fst).Nodup) :
    lookupField (objSpread a b) key
      = (lookupField b key).orElse (fun _ => lookupField a key) := by
  induction b generalizing a with
  | nil => simp [objSpread, lookupField, Option.orElse]
  | cons p rest ih =>
    obtain ⟨k, v⟩ := p
    simp only [List.map_cons, List.nodup_cons] at hb
    have hstep : objSpread a ((k, v) :: rest) = objSpread (objAssign a k v) rest := rfl
    rw [hstep, ih (objAssign a k v) hb.2, lookupField_objAssign]
    by_cases hk : key = k
    · subst hk
      rw [lookupField_eq_none_of_not_mem rest key hb.1]
      simp [lookupField, Option.orElse]
    · simp only [if_neg hk, lookupField, if_neg (fun he : k = key => hk he.symm)]

-- ===========================================================================
-- State-sync binding (use-unified-app.ts)
-- ===========================================================================

/-- Embedding of the `useOpenAIGlobal` change handler for one key: when
`window.openai` is still set and the key is present on it, the tracked value
becomes the host's current value, otherwise it is left unchanged. -/
def useOpenAIGlobalHandleChange (openaiPresent keyPresent : Bool)
    (hostValue oldValue : JSValue) : JSValue :=
  if openaiPresent && keyPresent then hostValue else oldValue

/-- Embedding of the widget-state sync effect: on the first host, a non-null
tracked `widgetState` overwrites the local widget state; a null one leaves
it unchanged. -/
def syncWidgetStateEffect (platform : Platform) (openaiWidgetState localState : JSValue) :
    JSValue :=
  if platform = Platform.openai ∧ isNullJS openaiWidgetState = false
  then openaiWidgetState else localState

/-- One host push of `widgetState` through the "openai:set_globals" event:
the change handler updates the tracked global, then the sync effect folds it
into the local widget state. -/
def processGlobalsPush (platform : Platform) (openaiPresent keyPresent : Bool)
    (pushed localState : JSValue) : JSValue :=
  syncWidgetStateEffect platform
    (useOpenAIGlobalHandleChange openaiPresent keyPresent pushed pushed) localState

/-- C2: on the first host, a non-null value pushed through the
globals-changed event becomes the local widget state once the push is
processed, while a null push leaves the local widget state unchanged. -/
theorem C2_globalsPush : ∀ pushed localState : JSValue,
    (isNullJS pushed = false →
      processGlobalsPush Platform.openai true true pushed localState = pushed)
    ∧ (pushed = JSValue.null →
      processGlobalsPush Platform.openai true true pushed localState = localState) := by
  intro pushed localState
  constructor
  · intro h
    simp [processGlobalsPush, useOpenAIGlobalHandleChange, syncWidgetStateEffect, h]
  · intro h
    subst h
    simp [processGlobalsPush, useOpenAIGlobalHandleChange, syncWidgetStateEffect, isNullJS]

/-- Witness for C2: a concrete non-null push overwrites, a null push leaves
the prior local value in place. -/
theorem C2_globalsPush_witness :
    processGlobalsPush Platform.openai true true (JSValue.str "new") (JSValue.str "old")
      = JSValue.str "new"
    ∧ processGlobalsPush Platform.openai true true JSValue.null (JSValue.str "old")
      = JSValue.str "old" :=
  ⟨(C2_globalsPush (JSValue.str "new") (JSValue.str "old")).1 rfl,
   (C2_globalsPush JSValue.null (JSValue.str "old")).2 rfl⟩

/-- JavaScript spread source of an arbitrary value (`\x7b ...v \x7d`): an
object contributes its fields, a string or an array its indexed elements,
and any other primitive nothing. -/
def toSpreadFields : JSValue → List (String × JSValue)
  | .obj fs => fs
  | .str s => (List.enum s.data).map
      (fun p => (toString p.1, JSValue.str (String.mk [p.2])))
  | .arr xs => (List.enum xs).map (fun p => (toString p.1, p.2))
  | _ => []

/-- Embedding of the binding's `setWidgetState`: the local reactive state is
written to the new value first, then (only with a constructed adapter on the
first host) the state is forwarded unguarded to `openai.setWidgetState`; the
pair returned is the new local state and the outcome observed by the
caller. -/
def hookSetWidgetState (platform : Platform) (hasAdapter : Bool)
    (hostSetWidgetState : JSValue → Except String Unit) (state : JSValue) :
    JSValue × Except String Unit :=
  (state,
   if hasAdapter = true ∧ platform = Platform.openai
   then hostSetWidgetState state else .ok ())

/-- Embedding of the binding's `updateWidgetState`: the local reactive state
becomes the spread `\x7b ...prev, ...state \x7d`, then (only with a
constructed adapter on the first host) the partial state is forwarded
unguarded to `openai.updateWidgetState`. -/
def hookUpdateWidgetState (platform : Platform) (hasAdapter : Bool)
    (hostUpdateWidgetState : JSValue → Except String Unit) (prev state : JSValue) :
    JSValue × Except String Unit :=
  (JSValue.obj (objSpread (toSpreadFields prev) (toSpreadFields state)),
   if hasAdapter = true ∧ platform = Platform.openai
   then hostUpdateWidgetState state else .ok ())

/-- C8: on any platform, `updateWidgetState` with a one-field update on an
object-valued local state yields the shallow merge: the updated key reads
the new value and every other key keeps its prior value. -/
theorem C8_updateWidgetStateMerge : ∀ (platform : Platform) (hasAdapter : Bool)
    (hostUpdateWidgetState : JSValue → Except String Unit)
    (prevFields : List (String × JSValue)) (k : String) (v : JSValue),
    (hookUpdateWidgetState platform hasAdapter hostUpdateWidgetState
        (JSValue.obj prevFields) (JSValue.obj [(k, v)])).1
      = JSValue.obj (objAssign prevFields k v)
    ∧ ∀ key, lookupField (objAssign prevFields k v) key
        = if key = k then some v else lookupField prevFields key := by
  intro platform hasAdapter hostUpdateWidgetState prevFields k v
  exact ⟨rfl, fun key => lookupField_objAssign prevFields k v key⟩

/-- C5 counterexample: the claim says no error from the first-host state
forwarding propagates back to the caller, but the forwarding in
`setWidgetState` is unguarded: with a constructed adapter on the first host
and a throwing `openai.setWidgetState`, the caller observes the thrown
error, not a normal return. -/
theorem C5_counterexample :
    (hookSetWidgetState Platform.openai true (fun _ => Except.error "boom")
        (JSValue.str "x")).2 = Except.error "boom"
    ∧ ((hookSetWidgetState Platform.openai true (fun _ => Except.error "boom")
        (JSValue.str "x")).2 = Except.ok () → False) := by
  refine ⟨by simp [hookSetWidgetState], ?_⟩
  intro h
  simp [hookSetWidgetState] at h

/-- C5 (amended): `setWidgetState`/`updateWidgetState` always write local
reactive state synchronously on every platform; with a constructed adapter
on the first host they additionally forward to the host's native call, and
that forwarding is unguarded, so its outcome (including a thrown error) is
exactly what the caller observes; off the first host (or without an adapter)
no host call is made and the call returns normally. -/
theorem C5_amended : ∀ (platform : Platform) (hasAdapter : Bool)
    (hostSetWidgetState hostUpdateWidgetState : JSValue → Except String Unit)
    (prev state upd : JSValue),
    (hookSetWidgetState platform hasAdapter hostSetWidgetState state).1 = state
    ∧ (hookUpdateWidgetState platform hasAdapter hostUpdateWidgetState prev upd).1
        = JSValue.obj (objSpread (toSpreadFields prev) (toSpreadFields upd))
    ∧ (hasAdapter = true → platform = Platform.openai →
        (hookSetWidgetState platform hasAdapter hostSetWidgetState state).2
            = hostSetWidgetState state
        ∧ (hookUpdateWidgetState platform hasAdapter hostUpdateWidgetState prev upd).2
            = hostUpdateWidgetState upd)
    ∧ (hasAdapter = false ∨ platform ≠ Platform.openai →
        (hookSetWidgetState platform hasAdapter hostSetWidgetState state).2
            = Except.ok ()
        ∧ (hookUpdateWidgetState platform hasAdapter hostUpdateWidgetState prev upd).2
            = Except.ok ()) := by
  intro platform hasAdapter hostSetWidgetState hostUpdateWidgetState prev state upd
  refine ⟨rfl, rfl, ?_, ?_⟩
  · intro ha hp
    constructor <;> simp [hookSetWidgetState, hookUpdateWidgetState, ha, hp]
  · intro hoff
    have hcond : ¬ (hasAdapter = true ∧ platform = Platform.openai) := by
      rcases hoff with h | h
      · exact fun hc => by rw [h] at hc; exact Bool.noConfusion hc.1
      · exact fun hc => h hc.2
    constructor <;> simp [hookSetWidgetState, hookUpdateWidgetState, hcond]

/-- Witness for C5 (amended) at concrete inputs on and off the first host. -/
theorem C5_amended_witness :
    (hookSetWidgetState Platform.openai true (fun _ => Except.ok ())
        (JSValue.num 1)).2 = Except.ok ()
    ∧ (hookSetWidgetState Platform.unknown false (fun _ => Except.error "boom")
        (JSValue.num 1)).2 = Except.ok () :=
  ⟨((C5_amended Platform.openai true (fun _ => Except.ok ()) (fun _ => Except.ok ())
      JSValue.null (JSValue.num 1) JSValue.null).2.2.1 rfl rfl).1,
   ((C5_amended Platform.unknown false (fun _ => Except.error "boom")
      (fun _ => Except.error "boom") JSValue.null (JSValue.num 1)
      JSValue.null).2.2.2 (Or.inl rfl)).1⟩

/-- Embedding of the second host's `onhostcontextchanged` handler: while the
binding is mounted, the stored host context (possibly still undefined)
becomes the spread `\x7b ...prev, ...params \x7d` of the update over the
previous record. -/
def onHostContextChangedStep (mounted : Bool)
    (prev : Option (List (String × JSValue))) (params : List (String × JSValue)) :
    Option (List (String × JSValue)) :=
  if mounted then some (objSpread (prev.getD []) params) else prev

/-- C9: on the second host, a pushed context update with unique field names
shallow-merges over the previous context: every field present in the update
reads the update's value, every field absent from it keeps its previous
value. -/
theorem C9_hostContextMerge : ∀ (prev : Option (List (String × JSValue)))
    (params : List (String × JSValue)),
    (params.map Prod.fst).Nodup →
    onHostContextChangedStep true prev params
        = some (objSpread (prev.getD []) params)
    ∧ ∀ key, lookupField (objSpread (prev.getD []) params) key
        = (lookupField params key).orElse (fun _ => lookupField (prev.getD []) key) := by
  intro prev params hnodup
  exact ⟨rfl, fun key => lookupField_objSpread (prev.getD []) params key hnodup⟩

/-- Witness for C9: merging a one-field update over a two-field context
replaces the updated field and keeps the other. -/
theorem C9_hostContextMerge_witness :
    lookupField
        (objSpread ((some [("theme", JSValue.str "light"), ("locale", JSValue.str "en")]
            : Option (List (String × JSValue))).getD [])
          [("theme", JSValue.str "dark")]) "locale"
      = (lookupField [("theme", JSValue.str "dark")] "locale").orElse
          (fun _ => lookupField
            ((some [("theme", JSValue.str "light"), ("locale", JSValue.str "en")]
              : Option (List (String × JSValue))).getD []) "locale") :=
  ((C9_hostContextMerge
      (some [("theme", JSValue.str "light"), ("locale", JSValue.str "en")])
      [("theme", JSValue.str "dark")] (by simp)).2) "locale"

-- ===========================================================================
-- Second-host handshake (use-unified-app.ts, the MCP branch of the mount
-- effect, and finalPlatform)
-- ===========================================================================

/-- A JavaScript thrown/rejected value: either an `Error` instance carrying a
message, or any other value. -/
inductive JSThrown where
  | errObj (msg : String)
  | value (v : JSValue)

/-- Embedding of `err instanceof Error ? err : new Error("Failed to
connect")`: the message of the Error instance stored by `setError`. -/
def coerceCaughtError : JSThrown → String
  | .errObj m => m
  | .value _ => "Failed to connect"

/-- The binding state touched by the mount effect. -/
structure BindingState where
  hasApp : Bool
  isConnected : Bool
  error : Option String

/-- Initial binding state: no adapter, not connected, no error. -/
def initialBindingState : BindingState := ⟨false, false, none⟩

/-- Embedding of the second-host branch of the mount effect around
`await mcpApp.connect(transport)`: on success (still mounted) the adapter is
installed and `isConnected` becomes true; on a rejection (still mounted) the
caught value is coerced to an Error and stored, and `isConnected` is set
false.  Nothing retries. -/
def initMCP (mounted : Bool) (connectResult : Except JSThrown Unit)
    (s : BindingState) : BindingState :=
  match connectResult with
  | .ok _ => if mounted then { s with hasApp := true, isConnected := true } else s
  | .error t =>
    if mounted then { s with error := some (coerceCaughtError t), isConnected := false }
    else s

/-- Embedding of `finalPlatform`: first-host raw detection stays "openai";
otherwise "mcp" exactly when connected, else "unknown". -/
def finalPlatform (raw : Platform) (isConnected : Bool) : Platform :=
  if raw = Platform.openai then Platform.openai
  else if isConnected then Platform.mcp
  else Platform.unknown

/-- C6 counterexample: the claim says the exposed error equals the
thrown/rejected value, but a rejection with a non-Error value (here the
string "boom") is replaced by a fresh Error whose fixed message is "Failed
to connect", which is not the thrown value. -/
theorem C6_counterexample :
    (initMCP true (Except.error (JSThrown.value (JSValue.str "boom")))
        initialBindingState).error = some "Failed to connect"
    ∧ ("Failed to connect" = "boom" → False) :=
  ⟨rfl, fun h => by simp at h⟩

/-- C6 (amended): if the second-host handshake rejects, `isConnected` stays
false, the exposed platform stays "unknown", and the exposed error is the
thrown value itself when that value is an Error instance, otherwise a fresh
Error with message "Failed to connect"; and the exposed platform is "mcp"
exactly when raw detection was not first-host and the handshake succeeded. -/
theorem C6_amended : ∀ t : JSThrown,
    (initMCP true (Except.error t) initialBindingState).isConnected = false
    ∧ (initMCP true (Except.error t) initialBindingState).error
        = some (coerceCaughtError t)
    ∧ (∀ m, t = JSThrown.errObj m → coerceCaughtError t = m)
    ∧ finalPlatform Platform.unknown
        (initMCP true (Except.error t) initialBindingState).isConnected
        = Platform.unknown
    ∧ (∀ (raw : Platform) (connectResult : Except JSThrown Unit),
        finalPlatform raw
            (initMCP true connectResult initialBindingState).isConnected
          = Platform.mcp
        ↔ (raw ≠ Platform.openai ∧ connectResult = Except.ok ())) := by
  intro t
  refine ⟨rfl, rfl, ?_, rfl, ?_⟩
  · intro m hm
    subst hm
    rfl
  · intro raw connectResult
    rcases connectResult with t2 | u
    · cases raw <;> simp [finalPlatform, initMCP, initialBindingState]
    · cases u
      cases raw <;> simp [finalPlatform, initMCP, initialBindingState]

/-- Witness for C6 (amended): a rejection with an Error instance surfaces
that same message, and a successful handshake off the first host yields
platform "mcp". -/
theorem C6_amended_witness :
    coerceCaughtError (JSThrown.errObj "boom") = "boom"
    ∧ finalPlatform Platform.unknown
        (initMCP true (Except.ok ()) initialBindingState).isConnected
      = Platform.mcp :=
  ⟨(C6_amended (JSThrown.errObj "boom")).2.2.1 "boom" rfl,
   ((C6_amended (JSThrown.errObj "any")).2.2.2.2 Platform.unknown
      (Except.ok ())).mpr ⟨by simp, rfl⟩⟩
